import Mathlib

/-!
Verification of the scheduling/reservation core of a small booking site.

Shallow embedding of:
* `models.py`  — the `ProductStatus` / `BookingStatus` enums, the `Product`
  and `Booking` records, and `Booking.check_availability`;
* `forms.py`   — `BookingForm.__init__` (active-product choice population),
  `BookingForm.validate_start` and `BookingForm.validate_email`;
* `routes.py`  — the `booking`, `booking_success` and `booking_cancel` handlers;
* `utils.py`   — the line-item construction in `create_stripe_checkout_session`,
  including the exact IEEE-754 binary64 behaviour of `int(float(price) * 100)`.

Timestamps are modelled as whole seconds since an epoch falling at local
midnight, so the hour-of-day of `t` is `t / 3600 % 24`; 24 hours = 86400 s,
7 days = 604800 s, the fixed 2-hour service duration = 7200 s.
The SQLAlchemy store is a pair of lists; primary-key lookups are `List.find?`
on the `id` field.  Conditions of the form `start >= now - 7 days` are
rendered as `now ≤ start + 604800`, which is the same inequality rearranged
so that no truncated natural subtraction occurs.
-/

/-- `ProductStatus` enum from models.py. -/
inductive ProductStatus
  | active
  | coming_soon
deriving DecidableEq

/-- `BookingStatus` enum from models.py. -/
inductive BookingStatus
  | pending
  | confirmed
  | completed
  | cancelled
deriving DecidableEq

/-- `Product` row (models.py).  `price_cents` is the `Numeric(10, 2)` price in
cents: the decimal price is `price_cents / 100` dollars, so it has exactly two
decimal places and (by the column type) `price_cents < 10^10`. -/
structure Product where
  id : Nat
  name : String
  description : String
  price_cents : Nat
  status : ProductStatus
  is_membership : Bool
  stripe_price_id : Option String
deriving DecidableEq

/-- `Booking` row (models.py).  `end_` models the `end` column (a Lean
keyword).  `user_id` is the optional owning user, `stripe_payment_id` the
optional external payment reference. -/
structure Booking where
  id : Nat
  user_id : Option Nat
  product_id : Nat
  name : String
  email : String
  phone : String
  start : Nat
  end_ : Nat
  notes : String
  stripe_payment_id : Option String
  status : BookingStatus
deriving DecidableEq

/-- The persistent store: the `products` and `bookings` tables. -/
structure Db where
  products : List Product
  bookings : List Booking
deriving DecidableEq

/-- `Booking.status.in_([BookingStatus.PENDING, BookingStatus.CONFIRMED])`:
the statuses that count as an active booking. -/
def isActiveStatus (s : BookingStatus) : Bool :=
  s == .pending || s == .confirmed

/-- The per-row filter of the query inside `Booking.check_availability`
(models.py): the row has active status and its `[start, end)` interval meets
the candidate `[start_time, end_time)` interval under the three-disjunct rule
  (start <= start_time and end > start_time)
  or (start < end_time and end >= end_time)
  or (start >= start_time and end <= end_time). -/
def conflictsWith (b : Booking) (start_time end_time : Nat) : Bool :=
  isActiveStatus b.status &&
    ((decide (b.start ≤ start_time) && decide (b.end_ > start_time)) ||
     (decide (b.start < end_time) && decide (b.end_ ≥ end_time)) ||
     (decide (b.start ≥ start_time) && decide (b.end_ ≤ end_time)))

/-- The `if exclude_booking_id:` filter of `Booking.check_availability`.
Python truthiness: both `None` and id `0` skip the extra filter. -/
def excludeFilter (exclude_booking_id : Option Nat) (b : Booking) : Bool :=
  match exclude_booking_id with
  | none => true
  | some i => if i = 0 then true else b.id != i

/-- `Booking.check_availability` (models.py): `True` (available) iff no stored
row passes the conflict query. -/
def Booking.check_availability (bookings : List Booking)
    (start_time end_time : Nat) (exclude_booking_id : Option Nat) : Bool :=
  (bookings.filter fun b =>
      conflictsWith b start_time end_time && excludeFilter exclude_booking_id b).isEmpty

/-- `datetime.hour` of a timestamp in seconds since a midnight epoch. -/
def hourOf (t : Nat) : Nat := t / 3600 % 24

/-- Flash/validation message constants, verbatim from the source. -/
def leadTimeMsg : String := "Booking must be at least 24 hours in advance."

def businessHoursMsg : String := "Bookings are only available between 5 AM and 6 PM."

def slotUnavailableMsg : String := "This time slot is not available."

def rateLimitMsg : String := "You can only book one service per 7-day period."

def invalidSelectionMsg : String := "Invalid service selected."

def paymentUnavailableMsg : String :=
  "Payment processing is currently unavailable. Please try again later."

def contactUsMsg : String :=
  "Booking confirmation failed. Please contact us to verify your appointment."

/-- `BookingForm.validate_start` (forms.py): first the 24-hour lead time
against `datetime.now()`, then business hours `5 ≤ hour < 18` of the start,
then availability of `[start, start + 2h)` against the stored bookings.
Returns the raised `ValidationError` message, or `none` when the field
passes. -/
def validate_start (now : Nat) (bookings : List Booking) (start : Nat) :
    Option String :=
  if start < now + 86400 then some leadTimeMsg
  else if hourOf start < 5 ∨ hourOf start ≥ 18 then some businessHoursMsg
  else if !(Booking.check_availability bookings start (start + 7200) none) then
    some slotUnavailableMsg
  else none

/-- The per-row filter of the query inside `BookingForm.validate_email`
(forms.py): same email, `start >= utcnow - 7 days` (rearranged to
`now_utc ≤ start + 604800`), and active status. -/
def recentBookingFilter (now_utc : Nat) (email : String) (b : Booking) : Bool :=
  b.email == email && decide (now_utc ≤ b.start + 604800) && isActiveStatus b.status

/-- `BookingForm.validate_email` (forms.py): reject when some booking of this
email with status PENDING or CONFIRMED has `start >= utcnow() - 7 days`. -/
def validate_email (now_utc : Nat) (bookings : List Booking) (email : String) :
    Option String :=
  if (bookings.filter (recentBookingFilter now_utc email)).isEmpty then none
  else some rateLimitMsg

/-- The submitted `BookingForm` data (forms.py field list; the peripheral
`DataRequired` / `Length` / `Email`-format field validators are orthogonal to
every property below and are not modelled). -/
structure BookingFormData where
  product_id : Nat
  name : String
  email : String
  phone : String
  start : Nat
  notes : String
deriving DecidableEq

/-- `BookingForm.__init__` (forms.py): the `product_id` choices are populated
from `Product.query.filter_by(status=ProductStatus.ACTIVE)`. -/
def activeChoiceIds (products : List Product) : List Nat :=
  (products.filter fun p => p.status == .active).map Product.id

/-- `form.validate_on_submit()` for the booking form: the wtforms
`SelectField` accepts the submitted `product_id` only when it is among the
populated choices (its built-in choice pre-validation), and the custom
`validate_start` / `validate_email` validators must raise nothing.
`now` is the local clock used by `validate_start`, `now_utc` the UTC clock
used by `validate_email`. -/
def bookingFormValid (now now_utc : Nat) (db : Db) (f : BookingFormData) : Bool :=
  (activeChoiceIds db.products).contains f.product_id &&
  (validate_start now db.bookings f.start).isNone &&
  (validate_email now_utc db.bookings f.email).isNone

/-- Outcome of one request to the `booking` route (routes.py). -/
inductive BookingOutcome
  | formErrors
  | invalidSelection
  | redirected (url : String)
  | paymentUnavailable
deriving DecidableEq

/-- User-visible flash message attached to an outcome of the `booking` route
(`formErrors` re-renders the form with field errors and flashes nothing;
`redirected` leaves for the external checkout page). -/
def BookingOutcome.flashMessage : BookingOutcome → Option String
  | .formErrors => none
  | .invalidSelection => some invalidSelectionMsg
  | .redirected _ => none
  | .paymentUnavailable => some paymentUnavailableMsg

/-- The `booking` route (routes.py).  `gateway` is the result of the external
`create_stripe_checkout_session` call (the session redirect URL, or `None` on
failure), `new_id` the primary key the insert assigns, `user_id` the optional
authenticated user.  On form failure the form is re-rendered; on a missing
product the `invalidSelectionMsg` is flashed; otherwise a PENDING booking with
`end = start + 2h` is inserted, and if the gateway call fails it is deleted
again (compensating delete) with the `paymentUnavailableMsg` flashed. -/
def bookingRoute (now now_utc : Nat) (db : Db) (gateway : Option String)
    (new_id : Nat) (user_id : Option Nat) (f : BookingFormData) :
    BookingOutcome × Db :=
  if bookingFormValid now now_utc db f then
    match db.products.find? (fun p => p.id == f.product_id) with
    | none => (.invalidSelection, db)
    | some product =>
      let b : Booking :=
        { id := new_id, user_id := user_id, product_id := product.id,
          name := f.name, email := f.email, phone := f.phone,
          start := f.start, end_ := f.start + 7200, notes := f.notes,
          stripe_payment_id := none, status := .pending }
      let db1 : Db := { db with bookings := db.bookings ++ [b] }
      match gateway with
      | some url => (.redirected url, db1)
      | none =>
        (.paymentUnavailable,
         { db1 with bookings := db1.bookings.filter fun x => x.id != new_id })
  else (.formErrors, db)

/-- `booking_id = request.args.get('booking_id') or session.pop(...)`:
the id-resolution strategy shared by both resolver callbacks. -/
def resolveBookingId (args_id session_id : Option Nat) : Option Nat :=
  match args_id with
  | some i => some i
  | none => session_id

/-- One outbound notification (external collaborator). -/
inductive Notification
  | bookingConfirmation (b : Booking)
  | operatorNotification (b : Booking)
deriving DecidableEq

/-- Flash message of the success callback. -/
inductive SuccessMsg
  | confirmedFlash
  | contactUsFlash
deriving DecidableEq

/-- The `booking_success` route (routes.py): resolve a booking id, look the
booking up; if found, set status CONFIRMED and record
`request.args.get('payment_intent', 'completed')` as the payment reference,
then send the two confirmation notifications; otherwise flash the
contact-us message and change nothing. -/
def booking_success (db : Db) (args_id session_id : Option Nat)
    (payment_intent : Option String) : Db × SuccessMsg × List Notification :=
  match resolveBookingId args_id session_id with
  | none => (db, .contactUsFlash, [])
  | some bid =>
    match db.bookings.find? (fun b => b.id == bid) with
    | none => (db, .contactUsFlash, [])
    | some b =>
      let b' : Booking :=
        { b with status := .confirmed,
                 stripe_payment_id := some (payment_intent.getD "completed") }
      ({ db with bookings := db.bookings.map fun x => if x.id == bid then b' else x },
       .confirmedFlash,
       [.bookingConfirmation b', .operatorNotification b'])

/-- The `booking_cancel` route (routes.py): resolve a booking id; if the
booking is found it is deleted outright, otherwise nothing changes.  The
cancelled-flash is shown in every case. -/
def booking_cancel (db : Db) (args_id session_id : Option Nat) : Db :=
  match resolveBookingId args_id session_id with
  | none => db
  | some bid =>
    match db.bookings.find? (fun b => b.id == bid) with
    | none => db
    | some _ => { db with bookings := db.bookings.filter fun b => b.id != bid }

/-- The full state an incoming success callback could in principle observe:
the store, the request parameters, and whether a payment actually succeeded on
the gateway's side.  The handler never consults the last field. -/
structure SuccessRequestWorld where
  db : Db
  args_id : Option Nat
  session_id : Option Nat
  payment_intent : Option String
  externalPaymentSucceeded : Bool

/-- `booking_success` as a function of the whole request world. -/
def booking_success_world (w : SuccessRequestWorld) :
    Db × SuccessMsg × List Notification :=
  booking_success w.db w.args_id w.session_id w.payment_intent

/-!
Exact model of `int(float(product.price) * 100)` from
`create_stripe_checkout_session` (utils.py).  CPython converts the two-decimal
`Decimal` price to the nearest IEEE-754 binary64 value, multiplies by `100.0`
with round-to-nearest, ties-to-even, and `int` truncates toward zero.  A
positive binary64 value `x` with `2^e ≤ x < 2^(e+1)` carries 52 fraction bits,
so rounding `x` to a double is rounding `x * 2^(52-e)` to an integer.  All
prices of the `Numeric(10, 2)` column lie far inside the normal double range,
so neither overflow nor subnormals arise.
-/

/-- Integer nearest to `a / b` (for `b > 0`), ties to even: the IEEE-754
default rounding applied to an exact nonnegative ratio. -/
def roundHalfEvenDiv (a b : Nat) : Nat :=
  if 2 * (a % b) < b then a / b
  else if b < 2 * (a % b) then a / b + 1
  else if (a / b) % 2 = 0 then a / b else a / b + 1

/-- Fuel-bounded base-2 logarithm (structural recursion, so that closed
instances reduce inside the kernel). -/
def log2fuel : Nat → Nat → Nat
  | 0, _ => 0
  | fuel + 1, n => if 2 ≤ n then log2fuel fuel (n / 2) + 1 else 0

/-- `nlog2 n = Nat.log2 n` for every `n < 2^128` (ample for all quantities
below, which stay under `2^100`). -/
def nlog2 (n : Nat) : Nat := log2fuel 128 n

/-- `52 - e₁` where `e₁ = ⌊log₂ (cents/100)⌋`: the scaling that turns the
decimal price into its 53-significant-bit representation.  For `cents ≥ 1`
the price is at least `0.01`, so `cents * 128 / 100 ≥ 1` and the floor-log
identity `⌊log₂ x⌋ = ⌊log₂ ⌊x * 2^7⌋⌋ - 7` applies. -/
def stripeS1 (cents : Nat) : Nat := 59 - nlog2 (cents * 128 / 100)

/-- Significand of `float(price)`: `cents/100` rounded to the nearest
multiple of `2^(-stripeS1 cents)`, i.e. `float(price) = stripeM1 / 2^s1`. -/
def stripeM1 (cents : Nat) : Nat :=
  roundHalfEvenDiv (cents * 2 ^ stripeS1 cents) 100

/-- `52 - e₂` where `e₂ = ⌊log₂ (float(price) * 100)⌋`, by the same
floor-log identity applied to the exact product `m1 * 100 / 2^s1`. -/
def stripeS2 (cents : Nat) : Nat :=
  59 - nlog2 (stripeM1 cents * 100 * 128 / 2 ^ stripeS1 cents)

/-- Significand of the binary64 product `float(price) * 100.0`: the exact
product `m1 * 100 / 2^s1` rounded to the nearest multiple of `2^(-s2)`. -/
def stripeM2 (cents : Nat) : Nat :=
  roundHalfEvenDiv (stripeM1 cents * 100 * 2 ^ stripeS2 cents)
    (2 ^ stripeS1 cents)

/-- `int(float(price) * 100)` for the two-decimal price `cents / 100`
dollars: the rounded binary64 product `stripeM2 / 2^s2`, truncated toward
zero. -/
def stripeUnitAmount (cents : Nat) : Nat :=
  if cents = 0 then 0 else stripeM2 cents / 2 ^ stripeS2 cents

/-- What the spec prescribes for the ad-hoc unit amount:
`round(price × 100)` with `price = cents / 100` dollars (rational
arithmetic, no floating point). -/
def specUnitAmount (cents : Nat) : Int :=
  round ((cents : ℚ) / 100 * 100)

/-- One Stripe checkout line item (utils.py): either a reference to the
stored `stripe_price_id`, or ad-hoc `price_data` with a currency, the
product's display data and the unit amount in cents. -/
inductive LineItem
  | storedPrice (price_id : String)
  | adHoc (currency : String) (name description : String) (unit_amount : Nat)
deriving DecidableEq

/-- The line-item construction of `create_stripe_checkout_session`
(utils.py): `if getattr(product, "stripe_price_id", None):` — Python
truthiness, so both `None` and the empty string fall through to the ad-hoc
branch, which fixes `currency = "usd"` and
`unit_amount = int(float(product.price) * 100)`. -/
def line_items_for (p : Product) : LineItem :=
  match p.stripe_price_id with
  | some pid =>
    if pid = "" then .adHoc "usd" p.name p.description (stripeUnitAmount p.price_cents)
    else .storedPrice pid
  | none => .adHoc "usd" p.name p.description (stripeUnitAmount p.price_cents)

/-! ### Helper lemmas -/

/-- A Boolean filter leaves a nonempty list exactly when some element of the
original list passes it. -/
theorem filter_isEmpty_false_iff {α : Type} (l : List α) (p : α → Bool) :
    (l.filter p).isEmpty = false ↔ ∃ a ∈ l, p a = true := by
  induction l with
  | nil => simp
  | cons x xs ih => by_cases h : p x <;> simp [List.filter_cons, h, ih]

/-- `validate_email` raises the rate-limit message exactly when some stored
booking passes its recent-active-same-email filter. -/
theorem validate_email_eq_some_iff (n : Nat) (bs : List Booking) (e : String) :
    validate_email n bs e = some rateLimitMsg ↔
      ∃ b ∈ bs, recentBookingFilter n e b = true := by
  rw [← filter_isEmpty_false_iff]
  unfold validate_email
  cases h : (bs.filter (recentBookingFilter n e)).isEmpty <;> simp [h]

/-- In a booking list with pairwise-distinct ids (a primary-key column),
`find?` by id returns exactly the member that carries the id. -/
theorem find?_eq_of_mem_nodup (bs : List Booking) (b : Booking)
    (hnd : (bs.map Booking.id).Nodup) (hb : b ∈ bs) :
    bs.find? (fun x => x.id == b.id) = some b := by
  cases hfind : bs.find? (fun x => x.id == b.id) with
  | none =>
    rw [List.find?_eq_none] at hfind
    exact absurd (by simp) (hfind b hb)
  | some x =>
    have hx := List.find?_some hfind
    have hxm := List.mem_of_find?_eq_some hfind
    have : x = b := List.inj_on_of_nodup_map hnd hxm hb (by simpa using hx)
    rw [this]

/-! ### Sample records used by witnesses and counterexamples -/

/-- A stored ACTIVE product at $75.00 with no stored external price. -/
def product75 : Product :=
  { id := 1, name := "a", description := "", price_cents := 7500,
    status := .active, is_membership := false, stripe_price_id := none }

/-- A stored COMING_SOON product. -/
def csProduct : Product :=
  { id := 2, name := "b", description := "", price_cents := 29900,
    status := .coming_soon, is_membership := false, stripe_price_id := none }

/-- A store holding only the COMING_SOON product. -/
def dbCS : Db := { products := [csProduct], bookings := [] }

/-- A store holding only the ACTIVE product. -/
def dbOK : Db := { products := [product75], bookings := [] }

/-- A submitted booking form that names the COMING_SOON product directly. -/
def fCS : BookingFormData :=
  { product_id := 2, name := "n", email := "e", phone := "p",
    start := 104400, notes := "" }

/-- A submitted booking form that names the ACTIVE product, with a start
29 hours after epoch (hour-of-day 5, past the 24-hour lead). -/
def fOK : BookingFormData :=
  { product_id := 1, name := "n", email := "e", phone := "p",
    start := 104400, notes := "" }

/-- A stored booking that admin action already marked COMPLETED. -/
def doneBooking : Booking :=
  { id := 1, user_id := none, product_id := 1, name := "n", email := "e",
    phone := "p", start := 100, end_ := 7300, notes := "",
    stripe_payment_id := some "x", status := .completed }

/-- A store holding only the COMPLETED booking. -/
def dbDone : Db := { products := [], bookings := [doneBooking] }

/-- A stored PENDING booking awaiting payment resolution. -/
def pendingBooking : Booking :=
  { id := 3, user_id := none, product_id := 1, name := "n", email := "e",
    phone := "p", start := 100, end_ := 7300, notes := "",
    stripe_payment_id := none, status := .pending }

/-- A store holding only the PENDING booking. -/
def dbPending : Db := { products := [], bookings := [pendingBooking] }

/-! ### Claims -/

/-- C8: for every candidate start strictly earlier than now + 24 hours, the
slot validator rejects with the lead-time reason, whatever the stored
bookings (hence regardless of overlap). -/
theorem slot_validator_lead_time (now : Nat) (bookings : List Booking)
    (start : Nat) (h : start < now + 86400) :
    validate_start now bookings start = some leadTimeMsg := by
  unfold validate_start
  rw [if_pos h]

/-- C8 witness: a start one second short of the 24-hour lead is rejected with
the lead-time message even though the store holds an overlapping active
booking. -/
theorem slot_validator_lead_time_witness :
    validate_start 0 [pendingBooking] 86399 = some leadTimeMsg :=
  slot_validator_lead_time 0 [pendingBooking] 86399 (by decide)

/-- C9 counterexample: a start whose hour-of-day is 10 with a conflict-free
store is nevertheless rejected (lead-time) when requested for the current
instant, so hour-in-range plus no conflict alone do not imply acceptance. -/
theorem business_hours_not_sufficient :
    5 ≤ hourOf 36000 ∧ hourOf 36000 < 18 ∧
    Booking.check_availability [] 36000 (36000 + 7200) none = true ∧
    validate_start 36000 [] 36000 ≠ none := by decide

/-- C9 (amended): for candidate starts that satisfy the 24-hour lead time,
hour-of-day in [5, 18) together with a free slot yields acceptance (only the
start hour is consulted, so 17:xx passes although start + 2h is past 18:00),
and hour-of-day outside [5, 18) yields the business-hours rejection no matter
what the stored bookings are. -/
theorem business_hours_rule (now start : Nat) (bookings : List Booking)
    (hlead : now + 86400 ≤ start) :
    ((5 ≤ hourOf start ∧ hourOf start < 18) →
      Booking.check_availability bookings start (start + 7200) none = true →
      validate_start now bookings start = none) ∧
    ((hourOf start < 5 ∨ 18 ≤ hourOf start) →
      validate_start now bookings start = some businessHoursMsg) := by
  have hnot : ¬ (start < now + 86400) := by omega
  constructor
  · rintro ⟨h5, h18⟩ havail
    unfold validate_start
    rw [if_neg hnot, if_neg (by omega), if_neg (by simp [havail])]
  · intro hh
    unfold validate_start
    rw [if_neg hnot, if_pos (by omega)]

/-- C9 witness: a 17:30 start the day after epoch is accepted (its 2-hour end
lies past 18:00), and an 18:00 start is rejected with the business-hours
message despite an empty store and ample lead time. -/
theorem business_hours_rule_witness :
    validate_start 0 [] 149400 = none ∧
    validate_start 0 [] 151200 = some businessHoursMsg :=
  ⟨(business_hours_rule 0 149400 [] (by decide)).1 (by decide) (by decide),
   (business_hours_rule 0 151200 [] (by decide)).2 (by decide)⟩

/-- C3: the rate limiter rejects exactly when the email has a PENDING or
CONFIRMED booking whose start is no older than 7 days at the moment of the
check, and concretely: with one active booking at start T, a request at any
time in [T, T + 7 days) is rejected while one at T + 7 days + 1 second is
accepted. -/
theorem rate_limiter_window (now_utc : Nat) (bookings : List Booking)
    (email : String) :
    (validate_email now_utc bookings email = some rateLimitMsg ↔
      ∃ b ∈ bookings, b.email = email ∧ isActiveStatus b.status = true ∧
        now_utc ≤ b.start + 604800) ∧
    (∀ (T t : Nat) (bk : Booking), bk.email = email → bk.start = T →
      isActiveStatus bk.status = true →
      (T ≤ t → t < T + 604800 → validate_email t [bk] email = some rateLimitMsg) ∧
      validate_email (T + 604800 + 1) [bk] email = none) := by
  constructor
  · rw [validate_email_eq_some_iff]
    constructor
    · rintro ⟨b, hb, hp⟩
      refine ⟨b, hb, ?_⟩
      simp only [recentBookingFilter, Bool.and_eq_true, beq_iff_eq,
        decide_eq_true_eq] at hp
      tauto
    · rintro ⟨b, hb, he, hs, ht⟩
      refine ⟨b, hb, ?_⟩
      simp only [recentBookingFilter, Bool.and_eq_true, beq_iff_eq,
        decide_eq_true_eq]
      tauto
  · intro T t bk he hs ha
    constructor
    · intro h1 h2
      have hp : recentBookingFilter t email bk = true := by
        simp only [recentBookingFilter, Bool.and_eq_true, beq_iff_eq,
          decide_eq_true_eq]
        exact ⟨⟨he, by omega⟩, ha⟩
      simp [validate_email, List.filter_cons, hp]
    · have hp : recentBookingFilter (T + 604800 + 1) email bk = false := by
        simp only [recentBookingFilter, Bool.and_eq_true, beq_iff_eq,
          decide_eq_true_eq, Bool.and_eq_false_iff]
        simp
        exact Or.inl (Or.inr (by omega))
      simp [validate_email, List.filter_cons, hp]

/-- C3 witness: with a PENDING booking at start 100, a request six days later
is rejected with the rate-limit message and one at 100 + 7 days + 1 s is
accepted; moreover at that moment the rejection criterion itself holds. -/
theorem rate_limiter_window_witness :
    validate_email 518500 [pendingBooking] "e" = some rateLimitMsg ∧
    validate_email 604901 [pendingBooking] "e" = none ∧
    (∃ b ∈ [pendingBooking], b.email = "e" ∧ isActiveStatus b.status = true ∧
      518500 ≤ b.start + 604800) :=
  ⟨((rate_limiter_window 518500 [pendingBooking] "e").2 100 518500 pendingBooking
      rfl rfl (by decide)).1 (by decide) (by decide),
   ((rate_limiter_window 604901 [pendingBooking] "e").2 100 518500 pendingBooking
      rfl rfl (by decide)).2,
   (rate_limiter_window 518500 [pendingBooking] "e").1.mp
     (((rate_limiter_window 518500 [pendingBooking] "e").2 100 518500 pendingBooking
        rfl rfl (by decide)).1 (by decide) (by decide))⟩

/-- C7: the overlap rule is symmetric on genuinely intersecting intervals:
whenever two active bookings satisfy `A.start < B.end` and `B.start < A.end`,
each one's interval passes the three-disjunct conflict rule against the
other's, and `check_availability` reports the slot taken in both directions. -/
theorem overlap_symmetry (A B : Booking)
    (hA : isActiveStatus A.status = true) (hB : isActiveStatus B.status = true)
    (h1 : A.start < B.end_) (h2 : B.start < A.end_) :
    conflictsWith A B.start B.end_ = true ∧ conflictsWith B A.start A.end_ = true ∧
    Booking.check_availability [A] B.start B.end_ none = false ∧
    Booking.check_availability [B] A.start A.end_ none = false := by
  have c1 : conflictsWith A B.start B.end_ = true := by
    simp only [conflictsWith, hA, Bool.true_and, Bool.or_eq_true, Bool.and_eq_true,
      decide_eq_true_eq]
    omega
  have c2 : conflictsWith B A.start A.end_ = true := by
    simp only [conflictsWith, hB, Bool.true_and, Bool.or_eq_true, Bool.and_eq_true,
      decide_eq_true_eq]
    omega
  refine ⟨c1, c2, ?_, ?_⟩
  · simp [Booking.check_availability, excludeFilter, List.filter_cons, c1]
  · simp [Booking.check_availability, excludeFilter, List.filter_cons, c2]

/-- C7 witness: a PENDING booking on [100, 7300) and a COMPLETED-free
CONFIRMED booking on [3000, 10200) are flagged against each other in both
directions. -/
theorem overlap_symmetry_witness :
    Booking.check_availability [pendingBooking] 3000 10200 none = false ∧
    Booking.check_availability
      [{ pendingBooking with
         id := 9
         start := 3000
         end_ := 10200
         status := .confirmed }] 100 7300 none = false :=
  ⟨((overlap_symmetry pendingBooking
      { pendingBooking with
        id := 9
        start := 3000
        end_ := 10200
        status := .confirmed } (by decide) (by decide) (by decide) (by decide)).2.2).1,
   ((overlap_symmetry pendingBooking
      { pendingBooking with
        id := 9
        start := 3000
        end_ := 10200
        status := .confirmed } (by decide) (by decide) (by decide) (by decide)).2.2).2⟩

/-- The PENDING booking the `booking` route inserts for `fOK` against `dbOK`
with primary key 7. -/
def newBookingOK : Booking :=
  { id := 7, user_id := none, product_id := 1, name := "n", email := "e",
    phone := "p", start := 104400, end_ := 111600, notes := "",
    stripe_payment_id := none, status := .pending }

/-- C1 counterexample: when the client directly supplies the id of a stored
COMING_SOON product, the request fails as a form-validation error (the
product-choice field only offers ACTIVE products), NOT with the manager's
"Invalid service selected." flash — the manager itself never re-checks the
status, so the claimed "invalid selection whenever not ACTIVE" is false. -/
theorem invalid_selection_only_on_absence :
    csProduct.status ≠ .active ∧
    bookingRoute 0 0 dbCS (some "u") 1 none fCS = (.formErrors, dbCS) ∧
    (bookingRoute 0 0 dbCS (some "u") 1 none fCS).1 ≠ .invalidSelection ∧
    (bookingRoute 0 0 dbCS (some "u") 1 none fCS).1.flashMessage ≠
      some invalidSelectionMsg := by
  refine ⟨by decide, by decide, by decide, ?_⟩
  decide

/-- C1 (amended): every booking the route creates references a stored ACTIVE
product — a product id outside the ACTIVE choices (absent or COMING_SOON) is
rejected by the form before the manager runs, leaving the store untouched —
but the exclusion of non-ACTIVE products happens in the form's choice
validation, not via the manager's "invalid selection" failure, which fires
only when a form-accepted id cannot be resolved. -/
theorem booking_creation_requires_active_product
    (now now_utc : Nat) (db : Db) (gateway : Option String) (new_id : Nat)
    (user_id : Option Nat) (f : BookingFormData)
    (hids : (db.products.map Product.id).Nodup) :
    (∀ b, b ∈ (bookingRoute now now_utc db gateway new_id user_id f).2.bookings →
        b ∉ db.bookings →
        ∃ p ∈ db.products, p.id = b.product_id ∧ p.status = .active) ∧
    ((activeChoiceIds db.products).contains f.product_id = false →
        bookingRoute now now_utc db gateway new_id user_id f = (.formErrors, db)) := by
  constructor
  · intro b hb hnb
    by_cases hform : bookingFormValid now now_utc db f
    · have hcont : (activeChoiceIds db.products).contains f.product_id = true := by
        unfold bookingFormValid at hform
        exact (Bool.and_eq_true _ _).mp ((Bool.and_eq_true _ _).mp hform).1 |>.1
      obtain ⟨q, hqmem, hqact, hqid⟩ :
          ∃ q ∈ db.products, q.status = .active ∧ q.id = f.product_id := by
        have hmem : f.product_id ∈ activeChoiceIds db.products := by
          simpa using hcont
        unfold activeChoiceIds at hmem
        obtain ⟨q, hq, hid⟩ := List.mem_map.mp hmem
        obtain ⟨hq1, hq2⟩ := List.mem_filter.mp hq
        exact ⟨q, hq1, by simpa using hq2, hid⟩
      unfold bookingRoute at hb
      rw [if_pos hform] at hb
      cases hfind : db.products.find? (fun p => p.id == f.product_id) with
      | none =>
        rw [hfind] at hb
        simp at hb
        exact absurd hb hnb
      | some product =>
        rw [hfind] at hb
        have hprodid : product.id = f.product_id := by
          simpa using List.find?_some hfind
        have hprodmem := List.mem_of_find?_eq_some hfind
        have hpq : product = q :=
          List.inj_on_of_nodup_map hids hprodmem hqmem (hprodid.trans hqid.symm)
        have hbnew : b.product_id = product.id := by
          cases gateway with
          | some url =>
            simp at hb
            rcases hb with hb | hb
            · exact absurd hb hnb
            · rw [hb]
          | none =>
            simp [List.mem_filter] at hb
            exact absurd hb.1 hnb
        exact ⟨product, hprodmem, hbnew.symm, by rw [hpq]; exact hqact⟩
    · unfold bookingRoute at hb
      rw [if_neg hform] at hb
      exact absurd hb hnb
  · intro hc
    have hv : bookingFormValid now now_utc db f = false := by
      unfold bookingFormValid
      rw [hc]
      simp
    unfold bookingRoute
    simp [hv]

/-- C1 witness: running the route against the ACTIVE-product store creates
`newBookingOK`, and the theorem yields its referenced product stored and
ACTIVE. -/
theorem booking_creation_requires_active_product_witness :
    ∃ p ∈ dbOK.products, p.id = newBookingOK.product_id ∧ p.status = .active :=
  (booking_creation_requires_active_product 0 0 dbOK (some "u") 7 none fOK
      (by decide)).1 newBookingOK (by decide) (by decide)

/-- Appending a fresh-id row and then deleting by that id restores the
original booking table. -/
theorem filter_ne_append_singleton (bs : List Booking) (nb : Booking)
    (new_id : Nat) (hfresh : ∀ b ∈ bs, b.id ≠ new_id) (hnb : nb.id = new_id) :
    (bs ++ [nb]).filter (fun x => x.id != new_id) = bs := by
  rw [List.filter_append]
  have h1 : bs.filter (fun x => x.id != new_id) = bs :=
    List.filter_eq_self.mpr (fun b hb => by simpa using hfresh b hb)
  have h2 : [nb].filter (fun x => x.id != new_id) = [] := by simp [hnb]
  rw [h1, h2, List.append_nil]

/-- C5: when the form passes but the external checkout cannot be created, the
route deletes the just-inserted PENDING booking — the store it returns is the
original one, no row with the new id exists afterward — and the caller gets
the payment-unavailable flash. -/
theorem compensating_delete (now now_utc : Nat) (db : Db) (new_id : Nat)
    (user_id : Option Nat) (f : BookingFormData)
    (hform : bookingFormValid now now_utc db f = true)
    (hfresh : ∀ b ∈ db.bookings, b.id ≠ new_id) :
    bookingRoute now now_utc db none new_id user_id f = (.paymentUnavailable, db) ∧
    (∀ b ∈ (bookingRoute now now_utc db none new_id user_id f).2.bookings,
      b.id ≠ new_id) ∧
    (bookingRoute now now_utc db none new_id user_id f).1.flashMessage =
      some paymentUnavailableMsg := by
  have hcont : (activeChoiceIds db.products).contains f.product_id = true := by
    unfold bookingFormValid at hform
    exact (Bool.and_eq_true _ _).mp ((Bool.and_eq_true _ _).mp hform).1 |>.1
  obtain ⟨q, hqmem, hqid⟩ : ∃ q ∈ db.products, q.id = f.product_id := by
    have hmem : f.product_id ∈ activeChoiceIds db.products := by simpa using hcont
    unfold activeChoiceIds at hmem
    obtain ⟨q, hq, hid⟩ := List.mem_map.mp hmem
    exact ⟨q, (List.mem_filter.mp hq).1, hid⟩
  obtain ⟨product, hfind⟩ :
      ∃ p, db.products.find? (fun p => p.id == f.product_id) = some p := by
    cases hf : db.products.find? (fun p => p.id == f.product_id) with
    | none =>
      rw [List.find?_eq_none] at hf
      exact absurd (by simp [hqid]) (hf q hqmem)
    | some p => exact ⟨p, rfl⟩
  have hrun : bookingRoute now now_utc db none new_id user_id f =
      (.paymentUnavailable, db) := by
    unfold bookingRoute
    rw [if_pos hform, hfind]
    dsimp only
    rw [filter_ne_append_singleton db.bookings _ new_id hfresh rfl]
  refine ⟨hrun, ?_, ?_⟩
  · rw [hrun]
    exact hfresh
  · rw [hrun]
    rfl

/-- C5 witness: a valid request against the ACTIVE-product store with a
failing gateway leaves the store exactly as it was and flashes the
payment-unavailable message. -/
theorem compensating_delete_witness :
    bookingRoute 0 0 dbOK none 7 none fOK = (.paymentUnavailable, dbOK) ∧
    (∀ b ∈ (bookingRoute 0 0 dbOK none 7 none fOK).2.bookings, b.id ≠ 7) ∧
    (bookingRoute 0 0 dbOK none 7 none fOK).1.flashMessage =
      some paymentUnavailableMsg :=
  compensating_delete 0 0 dbOK 7 none fOK (by decide) (by decide)

/-- The explicit result of a success callback that resolves to a stored
booking: the booking becomes CONFIRMED with the payment reference (or the
"completed" sentinel), the success flash is shown and both notifications go
out. -/
theorem booking_success_found (db : Db) (args_id session_id : Option Nat)
    (pi : Option String) (bid : Nat) (b : Booking)
    (hres : resolveBookingId args_id session_id = some bid)
    (hfind : db.bookings.find? (fun x => x.id == bid) = some b) :
    booking_success db args_id session_id pi =
      ({ db with bookings := db.bookings.map fun x =>
          if x.id == bid then
            { b with status := .confirmed,
                     stripe_payment_id := some (pi.getD "completed") } else x },
       .confirmedFlash,
       [.bookingConfirmation
          { b with status := .confirmed,
                   stripe_payment_id := some (pi.getD "completed") },
        .operatorNotification
          { b with status := .confirmed,
                   stripe_payment_id := some (pi.getD "completed") }]) := by
  unfold booking_success
  rw [hres]
  dsimp only
  rw [hfind]

/-- Abstract consequence of `booking_success_found`: a booking carrying the
resolved id ends up stored as CONFIRMED with the recorded payment reference,
and exactly the two notifications about it are emitted. -/
theorem booking_success_found_confirmed (db : Db) (args_id session_id : Option Nat)
    (pi : Option String) (bid : Nat) (b : Booking)
    (hres : resolveBookingId args_id session_id = some bid)
    (hfind : db.bookings.find? (fun x => x.id == bid) = some b) :
    ∃ b', b' ∈ (booking_success db args_id session_id pi).1.bookings ∧
      b'.id = b.id ∧ b'.status = .confirmed ∧
      b'.stripe_payment_id = some (pi.getD "completed") ∧
      (booking_success db args_id session_id pi).2.1 = .confirmedFlash ∧
      (booking_success db args_id session_id pi).2.2 =
        [.bookingConfirmation b', .operatorNotification b'] := by
  refine ⟨{ b with status := .confirmed, stripe_payment_id := some (pi.getD "completed") },
    ?_, rfl, rfl, rfl, ?_, ?_⟩
  · rw [booking_success_found db args_id session_id pi bid b hres hfind]
    have hmem := List.mem_of_find?_eq_some hfind
    have hpb := List.find?_some hfind
    have := List.mem_map_of_mem (fun x => if x.id == bid then
      { b with status := .confirmed,
               stripe_payment_id := some (pi.getD "completed") } else x) hmem
    simpa [hpb] using this
  · rw [booking_success_found db args_id session_id pi bid b hres hfind]
  · rw [booking_success_found db args_id session_id pi bid b hres hfind]

/-- C4: on the success callback, a resolvable id whose booking exists yields
that booking stored as CONFIRMED with the external payment reference (the
"completed" sentinel standing in when the processor sent no payment_intent),
the success flash, and exactly the two confirmation notifications; an id that
cannot be found — or no id at all — leaves the store untouched, sends no
notification and returns the contact-us message. -/
theorem success_callback_behaviour (db : Db) (args_id session_id : Option Nat)
    (pi : Option String) :
    (∀ bid b, resolveBookingId args_id session_id = some bid →
        db.bookings.find? (fun x => x.id == bid) = some b →
        ∃ b', b' ∈ (booking_success db args_id session_id pi).1.bookings ∧
          b'.id = b.id ∧ b'.status = .confirmed ∧
          b'.stripe_payment_id = some (pi.getD "completed") ∧
          (booking_success db args_id session_id pi).2.1 = .confirmedFlash ∧
          (booking_success db args_id session_id pi).2.2 =
            [.bookingConfirmation b', .operatorNotification b']) ∧
    (∀ bid, resolveBookingId args_id session_id = some bid →
        db.bookings.find? (fun x => x.id == bid) = none →
        booking_success db args_id session_id pi = (db, .contactUsFlash, [])) ∧
    (resolveBookingId args_id session_id = none →
        booking_success db args_id session_id pi = (db, .contactUsFlash, [])) := by
  refine ⟨?_, ?_, ?_⟩
  · intro bid b hres hfind
    exact booking_success_found_confirmed db args_id session_id pi bid b hres hfind
  · intro bid hres hfind
    unfold booking_success
    rw [hres]
    dsimp only
    rw [hfind]
  · intro hres
    unfold booking_success
    rw [hres]

/-- C4 witness: confirming the stored PENDING booking by id 3 (with no
payment_intent, hence the sentinel) works, and a callback with the unknown
id 9 is the no-op contact-us outcome. -/
theorem success_callback_behaviour_witness :
    (∃ b', b' ∈ (booking_success dbPending (some 3) none none).1.bookings ∧
      b'.id = pendingBooking.id ∧ b'.status = .confirmed ∧
      b'.stripe_payment_id = some ((none : Option String).getD "completed") ∧
      (booking_success dbPending (some 3) none none).2.1 = .confirmedFlash ∧
      (booking_success dbPending (some 3) none none).2.2 =
        [.bookingConfirmation b', .operatorNotification b']) ∧
    booking_success dbPending (some 9) none none =
      (dbPending, .contactUsFlash, []) :=
  ⟨(success_callback_behaviour dbPending (some 3) none none).1 3 pendingBooking
      rfl (by decide),
   (success_callback_behaviour dbPending (some 9) none none).2.1 9 rfl (by decide)⟩

/-- C2 counterexample: the resolver callbacks do touch non-PENDING bookings —
the cancel callback deletes a stored COMPLETED booking outright, and the
success callback sets a COMPLETED booking back to CONFIRMED. -/
theorem resolvers_touch_non_pending :
    doneBooking.status = .completed ∧
    (booking_cancel dbDone (some 1) none).bookings = [] ∧
    ((booking_success dbDone (some 1) none none).1.bookings.map Booking.status) =
      [.confirmed] := by
  refine ⟨rfl, by decide, by decide⟩

/-- C2 (amended): the resolvers transition any booking found by the supplied
id, with no status guard: the success callback stores it as CONFIRMED (with
the payment reference) and the cancel callback deletes it, whatever its
previous status — PENDING, CONFIRMED, COMPLETED or CANCELLED alike — while an
unresolvable id leaves the store unchanged on both paths.  The PENDING →
CONFIRMED and PENDING → deleted transitions of the claim are the special case
of a PENDING row. -/
theorem resolver_transitions (db : Db) (bid : Nat) (sid : Option Nat)
    (pi : Option String) :
    (∀ b, b ∈ db.bookings → b.id = bid →
        (b ∉ (booking_cancel db (some bid) sid).bookings) ∧
        ((db.bookings.map Booking.id).Nodup →
          { b with status := .confirmed, stripe_payment_id := some (pi.getD "completed") } ∈
            (booking_success db (some bid) sid pi).1.bookings)) ∧
    (db.bookings.find? (fun x => x.id == bid) = none →
        booking_cancel db (some bid) sid = db ∧
        booking_success db (some bid) sid pi = (db, .contactUsFlash, [])) := by
  constructor
  · intro b hb hid
    have hfindne : db.bookings.find? (fun x => x.id == bid) ≠ none := by
      intro hnone
      rw [List.find?_eq_none] at hnone
      exact hnone b hb (by simp [hid])
    constructor
    · cases hf : db.bookings.find? (fun x => x.id == bid) with
      | none => exact absurd hf hfindne
      | some c =>
        unfold booking_cancel resolveBookingId
        dsimp only
        rw [hf]
        intro hmem
        have := (List.mem_filter.mp hmem).2
        simp [hid] at this
    · intro hnd
      have hfind : db.bookings.find? (fun x => x.id == bid) = some b := by
        have h0 := find?_eq_of_mem_nodup db.bookings b hnd hb
        rw [hid] at h0
        exact h0
      rw [booking_success_found db (some bid) sid pi bid b rfl hfind]
      have hpb : (b.id == bid) = true := by simp [hid]
      have hm := List.mem_map_of_mem (fun x => if x.id == bid then
        { b with status := .confirmed, stripe_payment_id := some (pi.getD "completed") }
        else x) hb
      simpa [hpb] using hm
  · intro hfind
    constructor
    · unfold booking_cancel resolveBookingId
      dsimp only
      rw [hfind]
    · unfold booking_success resolveBookingId
      dsimp only
      rw [hfind]

/-- A stored booking that payment already CONFIRMED. -/
def confBooking : Booking :=
  { id := 4, user_id := none, product_id := 1, name := "n", email := "e",
    phone := "p", start := 100, end_ := 7300, notes := "",
    stripe_payment_id := some "x", status := .confirmed }

/-- A store holding only the CONFIRMED booking. -/
def dbConf : Db := { products := [], bookings := [confBooking] }

/-- C2 witness: the cancel callback removes the CONFIRMED booking and the
success callback re-stores it as CONFIRMED with the new payment reference. -/
theorem resolver_transitions_witness :
    (confBooking ∉ (booking_cancel dbConf (some 4) none).bookings) ∧
    ({ confBooking with status := .confirmed, stripe_payment_id := some "y" } ∈
      (booking_success dbConf (some 4) none (some "y")).1.bookings) := by
  have h := (resolver_transitions dbConf 4 none (some "y")).1 confBooking
    (by decide) rfl
  exact ⟨h.1, by simpa using h.2 (by decide)⟩

/-- A success-callback request world in which the external payment really
succeeded. -/
def wTrue : SuccessRequestWorld :=
  { db := dbPending, args_id := some 3, session_id := none,
    payment_intent := none, externalPaymentSucceeded := true }

/-- The same request world except that the external payment did not
succeed. -/
def wFalse : SuccessRequestWorld :=
  { db := dbPending, args_id := some 3, session_id := none,
    payment_intent := none, externalPaymentSucceeded := false }

/-- C10: the success callback's outcome depends only on the stored bookings,
the supplied/fallback booking id and the optional payment_intent string — two
request worlds that agree on those but differ on whether the payment actually
succeeded produce identical results — and any caller presenting an existing
booking id gets that booking stored as CONFIRMED. -/
theorem success_callback_gateway_independent (w₁ w₂ : SuccessRequestWorld)
    (hdb : w₁.db = w₂.db) (ha : w₁.args_id = w₂.args_id)
    (hs : w₁.session_id = w₂.session_id)
    (hp : w₁.payment_intent = w₂.payment_intent) :
    booking_success_world w₁ = booking_success_world w₂ ∧
    (∀ bid b, resolveBookingId w₁.args_id w₁.session_id = some bid →
        w₁.db.bookings.find? (fun x => x.id == bid) = some b →
        ∃ b' ∈ (booking_success_world w₁).1.bookings,
          b'.id = b.id ∧ b'.status = .confirmed) := by
  constructor
  · unfold booking_success_world
    rw [hdb, ha, hs, hp]
  · intro bid b hres hfind
    obtain ⟨b', hmem, hbid, hst, _, _, _⟩ :=
      booking_success_found_confirmed w₁.db w₁.args_id w₁.session_id
        w₁.payment_intent bid b hres hfind
    exact ⟨b', hmem, hbid, hst⟩

/-- C10 witness: the two sample worlds differing only in the external
payment's actual success produce the same callback result. -/
theorem success_callback_gateway_independent_witness :
    booking_success_world wTrue = booking_success_world wFalse :=
  (success_callback_gateway_independent wTrue wFalse rfl rfl rfl rfl).1

/-- Round-half-even of an exact ratio is exact division when the divisor
divides the dividend. -/
theorem roundHalfEvenDiv_of_dvd (a b : Nat) (hb : 0 < b) (hd : b ∣ a) :
    roundHalfEvenDiv a b = a / b := by
  unfold roundHalfEvenDiv
  obtain ⟨c, rfl⟩ := hd
  rw [Nat.mul_mod_right]
  simp [hb]

/-- Whole-dollar prices survive the float round trip exactly: both binary64
roundings are exact (the divisors divide), so the truncation returns the cent
amount itself.  The argument is independent of the computed exponents. -/
theorem stripeUnitAmount_whole_dollar (d : Nat) :
    stripeUnitAmount (100 * d) = 100 * d := by
  rcases Nat.eq_zero_or_pos d with h0 | hpos
  · subst h0
    simp [stripeUnitAmount]
  · have hcz : ¬ (100 * d = 0) := by omega
    have hm1 : stripeM1 (100 * d) = d * 2 ^ stripeS1 (100 * d) := by
      unfold stripeM1
      rw [roundHalfEvenDiv_of_dvd _ _ (by omega)
        ⟨d * 2 ^ stripeS1 (100 * d), by ring⟩]
      have h : 100 * d * 2 ^ stripeS1 (100 * d) =
          100 * (d * 2 ^ stripeS1 (100 * d)) := by ring
      rw [h, Nat.mul_div_cancel_left _ (by omega : 0 < 100)]
    have hm2 : stripeM2 (100 * d) = d * 100 * 2 ^ stripeS2 (100 * d) := by
      unfold stripeM2
      rw [hm1]
      have h2s : (0:Nat) < 2 ^ stripeS1 (100 * d) := Nat.pos_pow_of_pos _ (by omega)
      rw [roundHalfEvenDiv_of_dvd _ _ h2s
        ⟨d * 100 * 2 ^ stripeS2 (100 * d), by ring⟩]
      have h : d * 2 ^ stripeS1 (100 * d) * 100 * 2 ^ stripeS2 (100 * d) =
          2 ^ stripeS1 (100 * d) * (d * 100 * 2 ^ stripeS2 (100 * d)) := by ring
      rw [h, Nat.mul_div_cancel_left _ h2s]
    unfold stripeUnitAmount
    rw [if_neg hcz, hm2]
    have h : d * 100 * 2 ^ stripeS2 (100 * d) =
        100 * d * 2 ^ stripeS2 (100 * d) := by ring
    rw [h, Nat.mul_div_cancel _ (Nat.pos_pow_of_pos _ (by omega))]

/-- C6 counterexample: at the two-decimal price $19.99 the code's truncated
binary64 product is 1998 cents, one below the spec's round(price × 100) =
1999, and the emitted line item carries 1998 — so the unit amount is not
round(price × 100) for every product. -/
theorem unit_amount_truncates_at_1999 :
    stripeUnitAmount 1999 = 1998 ∧ specUnitAmount 1999 = 1999 ∧
    line_items_for { product75 with price_cents := 1999 } =
      .adHoc "usd" "a" "" 1998 := by
  refine ⟨by decide, ?_, by decide⟩
  unfold specUnitAmount
  have h : ((1999 : Nat) : ℚ) / 100 * 100 = ((1999 : Nat) : ℚ) := by norm_num
  rw [h, round_natCast]
  norm_num

/-- C6 (amended): a product without a stored price reference always yields an
ad-hoc line item with currency "usd" and unit amount
`int(float(price) * 100)`; for every whole-dollar Numeric(10,2) price (such
as $75.00 → 7500) that truncated binary64 product coincides with the spec's
round(price × 100), while fractional prices can fall one cent short
($19.99 → 1998). -/
theorem usd_unit_amount (p : Product) (d : Nat) (_hd : d < 10 ^ 8)
    (hp : p.stripe_price_id = none) (hc : p.price_cents = 100 * d) :
    line_items_for p = .adHoc "usd" p.name p.description p.price_cents ∧
    (stripeUnitAmount p.price_cents : Int) = specUnitAmount p.price_cents := by
  constructor
  · unfold line_items_for
    rw [hp, hc, stripeUnitAmount_whole_dollar]
  · rw [hc, stripeUnitAmount_whole_dollar]
    unfold specUnitAmount
    have h : ((100 * d : Nat) : ℚ) / 100 * 100 = ((100 * d : Nat) : ℚ) := by
      field_simp
      ring
    rw [h, round_natCast]

/-- C6 witness: the seeded $75.00 product produces a "usd" line item whose
unit amount 7500 equals round(75.00 × 100). -/
theorem usd_unit_amount_witness :
    line_items_for product75 = .adHoc "usd" product75.name product75.description
      product75.price_cents ∧
    (stripeUnitAmount product75.price_cents : Int) =
      specUnitAmount product75.price_cents :=
  usd_unit_amount product75 75 (by decide) rfl rfl
